import Mathlib

/-!
Verification of the Soft Agar Colony Counter record store and API handlers.

The HTTP handlers are embedded from src/api/main.py. The record store
(module api.storage, not present under src/) is modelled from the
specification; each such definition carries a doc comment starting with
`Modelled from the spec:`. External collaborators (image decoding, the
detection algorithm, PNG encoding) are passed to the handlers as explicit
outcome values, matching their interface contracts.
-/

namespace SoftAgar

/-- A colony marker: position and a size attribute. -/
structure Colony where
  x : Int
  y : Int
  r : Int
  deriving DecidableEq, Repr

/-- Raw image bytes, modelled as a list of byte values. -/
abbrev Bytes := List Nat

/-- A detection mask, treated opaquely as raw data. -/
abbrev Mask := List Nat

/-- Detection parameters: the configuration mapping, stored verbatim. -/
abbrev Params := List (String × String)

/-- Modelled from the spec: the Image Record of the store (api.storage is not
under src/): metadata and bytes for one uploaded image, the latest Detection
Record (colonies, count, parameters) and the Annotation Overlay
(manual_added, manual_removed). -/
structure ImageRecord where
  image_id : String
  session_id : String
  filename : String
  path : String
  bytes : Bytes
  colonies : List Colony
  last_detection_count : Int
  last_parameters : Params
  manual_added : List Colony
  manual_removed : List Colony
  deriving DecidableEq, Repr

/-- Modelled from the spec: the Record Store (api.storage is not under src/):
sessions mapping session ids to their image ids in insertion order, image
records keyed by image id, and a counter used to mint fresh identifiers. -/
structure Store where
  sessions : List (String × List String)
  images : List (String × ImageRecord)
  next_id : Nat
  deriving DecidableEq, Repr

/-- Association-list lookup by string key. -/
def assocFind {α : Type} (l : List (String × α)) (k : String) : Option α :=
  match l with
  | [] => none
  | (k2, v) :: rest => if k2 = k then some v else assocFind rest k

/-- Association-list update: replace the value at the first occurrence of the
key, leaving the list unchanged if the key is absent. -/
def assocUpdate {α : Type} (l : List (String × α)) (k : String) (v : α) :
    List (String × α) :=
  match l with
  | [] => []
  | (k2, v2) :: rest =>
    if k2 = k then (k2, v) :: rest else (k2, v2) :: assocUpdate rest k v

/-- Modelled from the spec: mint a fresh opaque identifier and register an
empty session under it. -/
def mint_session (s : Store) : String × Store :=
  let fresh := "session-" ++ toString s.next_id
  (fresh, { s with sessions := (fresh, []) :: s.sessions, next_id := s.next_id + 1 })

/-- Modelled from the spec: ensure_session (api.storage is not under src/):
if candidate_id is provided and already known, return it unchanged; if
provided but unknown, or omitted, mint a fresh opaque identifier and
register an empty session. Never fails. -/
def ensure_session (s : Store) (candidate : Option String) : String × Store :=
  match candidate with
  | some cid => if (assocFind s.sessions cid).isSome then (cid, s) else mint_session s
  | none => mint_session s

/-- Modelled from the spec: store_image (api.storage is not under src/):
persist the bytes to a store-owned location, register an Image Record under
the session, append the fresh image id to the image
collection of the owning session, and return the fresh image id. -/
def store_image (s : Store) (sid : String) (filename : String) (data : Bytes) :
    String × Store :=
  let iid := "image-" ++ toString s.next_id
  let rcd : ImageRecord :=
    { image_id := iid, session_id := sid, filename := filename,
      path := "uploads/" ++ iid, bytes := data, colonies := [],
      last_detection_count := 0, last_parameters := [],
      manual_added := [], manual_removed := [] }
  let sessions2 :=
    match assocFind s.sessions sid with
    | some imgs => assocUpdate s.sessions sid (imgs ++ [iid])
    | none => (sid, [iid]) :: s.sessions
  (iid, { s with
          sessions := sessions2
          images := (iid, rcd) :: s.images
          next_id := s.next_id + 1 })

/-- Modelled from the spec: get_image (api.storage is not under src/): look
up an Image Record, none when the image id is unknown (NotFound). -/
def get_image (s : Store) (iid : String) : Option ImageRecord :=
  assocFind s.images iid

/-- Modelled from the spec: save_detection (api.storage is not under src/):
fails with NotFound if the image id is unknown; on success replaces the
Detection Record atomically (old colonies, count and parameters discarded)
and resets the Annotation Overlay. -/
def save_detection (s : Store) (iid : String) (colonies : List Colony)
    (count : Int) (parameters : Params) : Option Store :=
  match assocFind s.images iid with
  | none => none
  | some r =>
    let r2 := { r with
                colonies := colonies
                last_detection_count := count
                last_parameters := parameters
                manual_added := []
                manual_removed := [] }
    some { s with images := assocUpdate s.images iid r2 }

/-- Modelled from the spec: update_annotations of the store (api.storage is
not under src/): fails with NotFound if the image id is unknown; appends the
supplied markers to the running manual_added and manual_removed collections
and returns the updated record together with the updated store. -/
def update_annotations (s : Store) (iid : String) (added removed : List Colony) :
    Option (ImageRecord × Store) :=
  match assocFind s.images iid with
  | none => none
  | some r =>
    let r2 := { r with
                manual_added := r.manual_added ++ added
                manual_removed := r.manual_removed ++ removed }
    some (r2, { s with images := assocUpdate s.images iid r2 })

/-- Modelled from the spec: final_count (api.storage is not under src/):
auto_count + |manual_added| - |manual_removed|, clamped to a minimum of
zero; a pure function of the record. -/
def final_count (r : ImageRecord) : Int :=
  max 0 (r.last_detection_count + (r.manual_added.length : Int) -
    (r.manual_removed.length : Int))

/-- Modelled from the spec: get_session_records (api.storage is not under
src/): all Image Records of the session in insertion order; an empty
sequence (not an error) when the session exists but has no images; none
(NotFound) when the session id was never created. -/
def get_session_records (s : Store) (sid : String) : Option (List ImageRecord) :=
  match assocFind s.sessions sid with
  | none => none
  | some iids => some (iids.filterMap (assocFind s.images))

/-- An HTTP error as raised by the handlers in src/api/main.py. -/
structure ApiError where
  status : Nat
  detail : String
  deriving DecidableEq, Repr

/-- Per-upload info returned by the upload handler (src/api/main.py). -/
structure UploadImageInfo where
  image_id : String
  filename : String
  deriving DecidableEq, Repr

/-- Response of the upload handler (src/api/main.py). -/
structure UploadResponse where
  session_id : String
  images : List UploadImageInfo
  deriving DecidableEq, Repr

/-- The per-file loop of upload_images in src/api/main.py: files whose read
bytes are empty are skipped; the rest are stored via store_image. -/
def uploadLoop (s : Store) (sid : String) (files : List (String × Bytes)) :
    List UploadImageInfo × Store :=
  match files with
  | [] => ([], s)
  | (fname, data) :: rest =>
    if data = [] then uploadLoop s sid rest
    else
      let stored := store_image s sid fname data
      let tail := uploadLoop stored.2 sid rest
      ({ image_id := stored.1, filename := fname } :: tail.1, tail.2)

/-- upload_images from src/api/main.py: reject an empty file list with 400;
otherwise ensure the session, store every non-empty file, and reject with
400 when no non-empty file was uploaded. The store after the call is
returned alongside the outcome, since the Python store is global state that
an HTTPException does not roll back. -/
def upload_images (s : Store) (files : List (String × Bytes))
    (session_id : Option String) : Except ApiError UploadResponse × Store :=
  if files = [] then (Except.error ⟨400, "No files provided."⟩, s)
  else
    let ses := ensure_session s session_id
    let looped := uploadLoop ses.2 ses.1 files
    if looped.1 = [] then
      (Except.error ⟨400, "No non-empty files were uploaded."⟩, looped.2)
    else (Except.ok ⟨ses.1, looped.1⟩, looped.2)

/-- Result of the external decode-and-detect step of src/api/main.py
(io_utils.load_image followed by detect_colonies). -/
structure Detection where
  colonies : List Colony
  count : Int
  mask : Option Mask
  deriving DecidableEq, Repr

/-- Response of the process handlers (src/api/main.py). -/
structure ProcessResponse where
  image_id : String
  session_id : String
  count : Int
  colonies : List Colony
  parameters : Params
  mask_png : Option String
  deriving DecidableEq, Repr

/-- process_image_handler from src/api/main.py. The external decode+detect
step is passed as its outcome detectResult (error carries the exception
text); cv2.imencode is passed as encodePng, whose outcome is: error when it
raises, ok none when it returns success = false, and ok (some png) when it
succeeds. -/
def process_image_handler (s : Store) (iid : String) (params : Params)
    (include_mask : Bool) (detectResult : Except String Detection)
    (encodePng : Mask → Except Unit (Option String)) :
    Except ApiError ProcessResponse × Store :=
  match get_image s iid with
  | none => (Except.error ⟨404, "Image not found."⟩, s)
  | some rcd =>
    match detectResult with
    | Except.error exc =>
      (Except.error ⟨400, "Processing failed: " ++ exc⟩, s)
    | Except.ok detection =>
      let s2 := (save_detection s iid detection.colonies detection.count params).getD s
      let mask_png : Option String :=
        if include_mask then
          match detection.mask with
          | none => none
          | some mask =>
            match encodePng mask with
            | Except.error _ => none
            | Except.ok o => o
        else none
      (Except.ok { image_id := iid, session_id := rcd.session_id,
                   count := detection.count, colonies := detection.colonies,
                   parameters := params, mask_png := mask_png }, s2)

/-- Response of the annotations handler (src/api/main.py). -/
structure AnnotationResponse where
  image_id : String
  session_id : String
  auto_count : Int
  manual_added : Nat
  manual_removed : Nat
  final_count : Int
  deriving DecidableEq, Repr

/-- The annotations handler from src/api/main.py (route POST
/annotations/image_id): delegates to the store update, maps KeyError to
404 and derives the final count from the updated record. -/
def update_annotations_handler (s : Store) (iid : String)
    (added removed : List Colony) : Except ApiError AnnotationResponse × Store :=
  match update_annotations s iid added removed with
  | none => (Except.error ⟨404, "Image not found."⟩, s)
  | some (r, s2) =>
    (Except.ok { image_id := iid, session_id := r.session_id,
                 auto_count := r.last_detection_count,
                 manual_added := r.manual_added.length,
                 manual_removed := r.manual_removed.length,
                 final_count := final_count r }, s2)

/-- One CSV row of the export in src/api/main.py download_results. -/
structure ResultRow where
  filename : String
  count : Int
  auto_count : Int
  manual_added : Nat
  manual_removed : Nat
  image_id : String
  parameters : String
  deriving DecidableEq, Repr

/-- Wrap a string in JSON double quotes. -/
def jsonQuote (s : String) : String := "\"" ++ s ++ "\""

/-- Models Python json.dumps with separators (",", ":") applied to the
stored parameters mapping, as done in src/api/main.py download_results. -/
def jsonDumps (ps : Params) : String :=
  "\x7b" ++ String.intercalate ","
    (ps.map fun kv => jsonQuote kv.1 ++ ":" ++ jsonQuote kv.2) ++ "\x7d"

/-- The parameter string of a row in src/api/main.py download_results: the
empty string when no parameters are stored, the compact JSON encoding of
the stored parameters otherwise. -/
def paramsStr (ps : Params) : String :=
  if ps = [] then "" else jsonDumps ps

/-- The row built for one record by download_results in src/api/main.py. -/
def exportRow (r : ImageRecord) : ResultRow :=
  { filename := r.filename, count := final_count r,
    auto_count := r.last_detection_count,
    manual_added := r.manual_added.length,
    manual_removed := r.manual_removed.length,
    image_id := r.image_id, parameters := paramsStr r.last_parameters }

/-- download_results from src/api/main.py: fetches the session records and
raises 404 when the resulting list is empty (for an unknown session id as
well as for an existing session without images); otherwise builds one row
per record. -/
def download_results (s : Store) (sid : String) : Except ApiError (List ResultRow) :=
  let records := (get_session_records s sid).getD []
  if records = [] then Except.error ⟨404, "Session not found or has no images."⟩
  else Except.ok (records.map exportRow)

/-! Concrete fixtures used to evaluate the development on explicit inputs. -/

/-- A store with no sessions and no images. -/
def emptyStore : Store := { sessions := [], images := [], next_id := 0 }

/-- A concrete colony marker. -/
def colonyA : Colony := { x := 1, y := 2, r := 3 }

/-- A second concrete colony marker. -/
def colonyB : Colony := { x := 4, y := 5, r := 6 }

/-- A third concrete colony marker. -/
def colonyC : Colony := { x := 7, y := 8, r := 9 }

/-- A concrete freshly uploaded image record with no detection yet. -/
def recW : ImageRecord :=
  { image_id := "image-0", session_id := "s1", filename := "plate1.tif",
    path := "uploads/image-0", bytes := [1, 2], colonies := [],
    last_detection_count := 0, last_parameters := [],
    manual_added := [], manual_removed := [] }

/-- A concrete store holding recW in session s1. -/
def storeW : Store :=
  { sessions := [("s1", ["image-0"])], images := [("image-0", recW)],
    next_id := 1 }

/-- A concrete store where session s1 exists but owns zero images. -/
def storeEmptySession : Store :=
  { sessions := [("s1", [])], images := [], next_id := 0 }

/-- A concrete record with auto count 0, no manual additions and three
manual removals. -/
def recZero : ImageRecord :=
  { image_id := "image-1", session_id := "s1", filename := "b.png",
    path := "uploads/image-1", bytes := [7], colonies := [],
    last_detection_count := 0, last_parameters := [],
    manual_added := [], manual_removed := [colonyA, colonyB, colonyC] }

/-- A concrete record with stored detection parameters. -/
def recP1 : ImageRecord :=
  { image_id := "image-2", session_id := "s1", filename := "c.png",
    path := "uploads/image-2", bytes := [3], colonies := [colonyA],
    last_detection_count := 1, last_parameters := [("threshold", "2")],
    manual_added := [], manual_removed := [] }

/-- Another concrete record storing the same detection parameters as recP1
but differing in every identity field. -/
def recP2 : ImageRecord :=
  { image_id := "image-3", session_id := "s2", filename := "d.png",
    path := "uploads/image-3", bytes := [4, 5], colonies := [],
    last_detection_count := 9, last_parameters := [("threshold", "2")],
    manual_added := [colonyB], manual_removed := [] }

/-- A concrete detection outcome carrying a mask. -/
def detW : Detection :=
  { colonies := [colonyB], count := 7, mask := some [0, 1] }

/-- The first entry stored by a concrete upload of one non-empty and one
empty file into a fresh store. -/
def uploadedPair : String × ImageRecord :=
  ((upload_images emptyStore [("a.png", [1]), ("b.png", [])] none).2.images).getD
    0 ("x", recW)

/-- The record produced by save_detection for a found record: new detection
data, annotation overlay reset. -/
def detectionApplied (r : ImageRecord) (cols : List Colony) (count : Int)
    (ps : Params) : ImageRecord :=
  { r with
    colonies := cols
    last_detection_count := count
    last_parameters := ps
    manual_added := []
    manual_removed := [] }

/-- The record produced by one update_annotations call for a found record:
markers appended to both overlay collections. -/
def annApplied (r : ImageRecord) (added removed : List Colony) : ImageRecord :=
  { r with
    manual_added := r.manual_added ++ added
    manual_removed := r.manual_removed ++ removed }

/-! Helper lemmas about the association-list primitives and the store
operations, shared by the claim theorems. -/

/-- Updating a present key makes lookup return the new value. -/
theorem assocFind_assocUpdate_self {α : Type} (l : List (String × α))
    (k : String) (v : α) (h : (assocFind l k).isSome) :
    assocFind (assocUpdate l k v) k = some v := by
  induction l with
  | nil => simp [assocFind] at h
  | cons hd tl ih =>
    obtain ⟨k2, v2⟩ := hd
    by_cases hk : k2 = k
    · simp [assocFind, assocUpdate, hk]
    · simp [assocFind, assocUpdate, hk] at h ⊢
      exact ih h

/-- ensure_session never touches the image records. -/
theorem ensure_session_images (s : Store) (cand : Option String) :
    (ensure_session s cand).2.images = s.images := by
  cases cand with
  | none => rfl
  | some cid =>
    by_cases h : (assocFind s.sessions cid).isSome
    · simp [ensure_session, h]
    · simp [ensure_session, h, mint_session]

/-- store_image prepends exactly one record, carrying the given bytes. -/
theorem store_image_images (s : Store) (sid fname : String) (data : Bytes) :
    ∃ iid rcd, (store_image s sid fname data).2.images = (iid, rcd) :: s.images ∧
      rcd.bytes = data :=
  ⟨_, _, rfl, rfl⟩

/-- The upload loop preserves the invariant that every stored image record
has a non-empty byte payload. -/
theorem uploadLoop_bytes_nonempty (files : List (String × Bytes)) :
    ∀ (s : Store) (sid : String), (∀ p ∈ s.images, p.2.bytes ≠ []) →
      ∀ p ∈ (uploadLoop s sid files).2.images, p.2.bytes ≠ [] := by
  induction files with
  | nil =>
    intro s sid hs
    simpa [uploadLoop] using hs
  | cons f rest ih =>
    intro s sid hs
    obtain ⟨fname, data⟩ := f
    by_cases hd : data = []
    · simpa [uploadLoop, hd] using ih s sid hs
    · have h2 : ∀ p ∈ (store_image s sid fname data).2.images, p.2.bytes ≠ [] := by
        obtain ⟨iid, rcd, heq, hbytes⟩ := store_image_images s sid fname data
        intro p hp
        rw [heq] at hp
        rcases List.mem_cons.mp hp with h | h
        · subst h
          simpa [hbytes] using hd
        · exact hs p h
      simpa [uploadLoop, hd] using ih (store_image s sid fname data).2 sid h2

/-- The upload loop stores nothing when every supplied payload is empty. -/
theorem uploadLoop_all_empty (files : List (String × Bytes)) (s : Store)
    (sid : String) (h : ∀ f ∈ files, f.2 = []) :
    uploadLoop s sid files = ([], s) := by
  induction files with
  | nil => rfl
  | cons f rest ih =>
    have hf : f.2 = [] := h f (List.mem_cons_self f rest)
    obtain ⟨fname, data⟩ := f
    have hd : data = [] := hf
    simp only [uploadLoop, hd, if_pos rfl]
    exact ih fun g hg => h g (List.mem_cons_of_mem _ hg)

/-! Claim theorems. -/

/-- C1: for every Image Record, final_count is the pure function
auto_count + card of manual_added - card of manual_removed clamped to a
minimum of zero; it never returns a negative value (being a function of the
record alone, repeated calls agree and have no side effects); in particular
on a record with auto_count 0, no manual_added and 3 manual_removed it
returns 0. -/
theorem C1_final_count_formula :
    (∀ r : ImageRecord,
      final_count r = max 0 (r.last_detection_count +
        (r.manual_added.length : Int) - (r.manual_removed.length : Int)) ∧
      0 ≤ final_count r) ∧
    final_count recZero = 0 := by
  refine ⟨fun r => ⟨rfl, le_max_left 0 _⟩, ?_⟩
  decide

/-- C2: for every known image_id, a successful save_detection fully
replaces the Detection Record — the stored record afterwards carries
exactly the new colonies, count and parameters, so the old ones are not
retrievable — and resets the Annotation Overlay to empty manual_added and
manual_removed, while the identity fields of the record are unchanged. -/
theorem C2_save_detection_replaces (s : Store) (iid : String)
    (r : ImageRecord) (cols : List Colony) (count : Int) (ps : Params)
    (h : get_image s iid = some r) :
    ∃ s2 r2, save_detection s iid cols count ps = some s2 ∧
      get_image s2 iid = some r2 ∧
      r2.colonies = cols ∧ r2.last_detection_count = count ∧
      r2.last_parameters = ps ∧ r2.manual_added = [] ∧
      r2.manual_removed = [] ∧ r2.image_id = r.image_id ∧
      r2.session_id = r.session_id ∧ r2.filename = r.filename ∧
      r2.path = r.path ∧ r2.bytes = r.bytes := by
  have hfind : assocFind s.images iid = some r := h
  have hsave : save_detection s iid cols count ps =
      some { s with
             images := assocUpdate s.images iid (detectionApplied r cols count ps) } := by
    simp [save_detection, detectionApplied, hfind]
  have hget : get_image
      { s with
        images := assocUpdate s.images iid (detectionApplied r cols count ps) } iid =
      some (detectionApplied r cols count ps) := by
    simp only [get_image]
    exact assocFind_assocUpdate_self s.images iid _ (by simp [hfind])
  exact ⟨_, detectionApplied r cols count ps, hsave, hget,
    rfl, rfl, rfl, rfl, rfl, rfl, rfl, rfl, rfl, rfl⟩

/-- Witness for C2 at a concrete store. -/
theorem C2_witness :
    ∃ s2 r2, save_detection storeW "image-0" [colonyA] 5 [("threshold", "2")]
        = some s2 ∧
      get_image s2 "image-0" = some r2 ∧
      r2.colonies = [colonyA] ∧ r2.last_detection_count = 5 ∧
      r2.last_parameters = [("threshold", "2")] ∧ r2.manual_added = [] ∧
      r2.manual_removed = [] ∧ r2.image_id = recW.image_id ∧
      r2.session_id = recW.session_id ∧ r2.filename = recW.filename ∧
      r2.path = recW.path ∧ r2.bytes = recW.bytes :=
  C2_save_detection_replaces storeW "image-0" recW [colonyA] 5
    [("threshold", "2")] (by decide)

/-- C3: for every known image_id, update_annotations calls are additive:
each call appends the supplied markers to the running manual_added and
manual_removed collections rather than replacing them, so two consecutive
calls leave the concatenation of all supplied markers behind the original
contents. -/
theorem C3_update_annotations_additive (s : Store) (iid : String)
    (r : ImageRecord) (a1 b1 a2 b2 : List Colony)
    (h : get_image s iid = some r) :
    ∃ r1 s1 r2 s2,
      update_annotations s iid a1 b1 = some (r1, s1) ∧
      r1.manual_added = r.manual_added ++ a1 ∧
      r1.manual_removed = r.manual_removed ++ b1 ∧
      update_annotations s1 iid a2 b2 = some (r2, s2) ∧
      r2.manual_added = (r.manual_added ++ a1) ++ a2 ∧
      r2.manual_removed = (r.manual_removed ++ b1) ++ b2 := by
  have hfind : assocFind s.images iid = some r := h
  have h1 : update_annotations s iid a1 b1 =
      some (annApplied r a1 b1,
        { s with
          images := assocUpdate s.images iid (annApplied r a1 b1) }) := by
    simp [update_annotations, annApplied, hfind]
  have hfind1 : assocFind (assocUpdate s.images iid (annApplied r a1 b1)) iid =
      some (annApplied r a1 b1) :=
    assocFind_assocUpdate_self s.images iid _ (by simp [hfind])
  have h2 : update_annotations
      { s with
        images := assocUpdate s.images iid (annApplied r a1 b1) }
      iid a2 b2 =
      some (annApplied (annApplied r a1 b1) a2 b2,
        { s with
          images := assocUpdate (assocUpdate s.images iid (annApplied r a1 b1)) iid
            (annApplied (annApplied r a1 b1) a2 b2) }) := by
    simp only [update_annotations, hfind1]
    rfl
  exact ⟨_, _, _, _, h1, rfl, rfl, h2, rfl, rfl⟩

/-- Witness for C3 at a concrete store: two calls, each adding one marker
to manual_added, leave manual_added of size 2. -/
theorem C3_witness :
    (∃ r1 s1 r2 s2,
      update_annotations storeW "image-0" [colonyA] [] = some (r1, s1) ∧
      r1.manual_added = recW.manual_added ++ [colonyA] ∧
      r1.manual_removed = recW.manual_removed ++ [] ∧
      update_annotations s1 "image-0" [colonyB] [] = some (r2, s2) ∧
      r2.manual_added = (recW.manual_added ++ [colonyA]) ++ [colonyB] ∧
      r2.manual_removed = (recW.manual_removed ++ []) ++ []) ∧
    ((recW.manual_added ++ [colonyA]) ++ [colonyB]).length = 2 :=
  ⟨C3_update_annotations_additive storeW "image-0" recW [colonyA] []
    [colonyB] [] (by decide), by decide⟩

/-- C4 counterexample: in a store where session s1 exists with zero images,
get_session_records returns the empty sequence, yet download_results does
not surface an empty export: it raises the very same 404 NotFound response
it raises for the never-created session id zz — the two cases are
conflated at the caller boundary. -/
theorem C4_counterexample :
    get_session_records storeEmptySession "s1" = some [] ∧
    download_results storeEmptySession "s1" ≠ Except.ok [] ∧
    download_results storeEmptySession "s1" =
      Except.error ⟨404, "Session not found or has no images."⟩ ∧
    download_results storeEmptySession "zz" =
      Except.error ⟨404, "Session not found or has no images."⟩ := by
  refine ⟨by decide, ?_, by simp [download_results, get_session_records,
    storeEmptySession, assocFind], by simp [download_results,
    get_session_records, storeEmptySession, assocFind]⟩
  simp [download_results, get_session_records, storeEmptySession, assocFind]

/-- C4 amended: at the store interface an existing session with zero images
yields the empty sequence, distinct from the none result of an unknown
session; but the export built on it (download_results) maps both the
empty-session and unknown-session cases to the same 404 response, so at
the export boundary the two conditions are conflated. -/
theorem C4_amended_conflated_export (s : Store) (sid : String)
    (hempty : assocFind s.sessions sid = some []) :
    get_session_records s sid = some [] ∧
    download_results s sid =
      Except.error ⟨404, "Session not found or has no images."⟩ ∧
    ∀ sid2, assocFind s.sessions sid2 = none →
      get_session_records s sid2 = none ∧
      download_results s sid2 =
        Except.error ⟨404, "Session not found or has no images."⟩ := by
  refine ⟨?_, ?_, ?_⟩
  · simp [get_session_records, hempty]
  · simp [download_results, get_session_records, hempty]
  · intro sid2 h2
    exact ⟨by simp [get_session_records, h2],
      by simp [download_results, get_session_records, h2]⟩

/-- Witness for C4 at a concrete store. -/
theorem C4_witness :
    get_session_records storeEmptySession "s1" = some [] ∧
    download_results storeEmptySession "s1" =
      Except.error ⟨404, "Session not found or has no images."⟩ ∧
    get_session_records storeEmptySession "zz" = none ∧
    download_results storeEmptySession "zz" =
      Except.error ⟨404, "Session not found or has no images."⟩ := by
  obtain ⟨h1, h2, h3⟩ :=
    C4_amended_conflated_export storeEmptySession "s1" (by decide)
  exact ⟨h1, h2, (h3 "zz" (by decide)).1, (h3 "zz" (by decide)).2⟩

/-- C5 counterexample: an upload request supplying one file whose payload
is empty is rejected with the ValidationFailure 400, yet before the
rejection a fresh session has already been created and registered in the
store — the store state is mutated. -/
theorem C5_counterexample :
    (upload_images emptyStore [("a.png", [])] none).1 =
      Except.error ⟨400, "No non-empty files were uploaded."⟩ ∧
    (upload_images emptyStore [("a.png", [])] none).2.sessions =
      [("session-0", [])] ∧
    emptyStore.sessions = [] := by
  refine ⟨?_, ?_, rfl⟩ <;> rfl

/-- C5 amended: a request with no files is rejected with no mutation at
all; a request whose supplied files all have empty payloads is rejected
with the ValidationFailure and no image is stored, but ensure_session has
already run, so the resulting store is exactly the store after session
creation (a session may have been registered before the rejection). -/
theorem C5_amended_validation (s : Store) (files : List (String × Bytes))
    (cand : Option String) :
    (files = [] →
      upload_images s files cand = (Except.error ⟨400, "No files provided."⟩, s)) ∧
    (files ≠ [] → (∀ f ∈ files, f.2 = []) →
      upload_images s files cand =
        (Except.error ⟨400, "No non-empty files were uploaded."⟩,
          (ensure_session s cand).2) ∧
      (ensure_session s cand).2.images = s.images) := by
  constructor
  · intro hf
    simp [upload_images, hf]
  · intro hne hall
    have hloop : uploadLoop (ensure_session s cand).2 (ensure_session s cand).1
        files = ([], (ensure_session s cand).2) :=
      uploadLoop_all_empty files _ _ hall
    constructor
    · simp [upload_images, hne, hloop]
    · exact ensure_session_images s cand

/-- Witness for C5 at a concrete store. -/
theorem C5_witness :
    upload_images emptyStore [("a.png", [])] none =
      (Except.error ⟨400, "No non-empty files were uploaded."⟩,
        (ensure_session emptyStore none).2) ∧
    (ensure_session emptyStore none).2.images = emptyStore.images :=
  (C5_amended_validation emptyStore [("a.png", [])] none).2 (by decide)
    (by decide)

/-- C6: for every process request on a known image_id, if the external
image decode or the detection algorithm raises, the handler fails as a
ProcessingFailure (400 with the exception text) and the store is left
unmodified: save_detection is never invoked on that failure path, so no
partial Detection Record is saved. -/
theorem C6_processing_failure_no_save (s : Store) (iid : String)
    (r : ImageRecord) (ps : Params) (inc : Bool) (exc : String)
    (enc : Mask → Except Unit (Option String))
    (h : get_image s iid = some r) :
    process_image_handler s iid ps inc (Except.error exc) enc =
      (Except.error ⟨400, "Processing failed: " ++ exc⟩, s) := by
  simp [process_image_handler, h]

/-- Witness for C6 at a concrete store. -/
theorem C6_witness :
    process_image_handler storeW "image-0" [] false (Except.error "boom")
      (fun _ => Except.ok none) =
      (Except.error ⟨400, "Processing failed: " ++ "boom"⟩, storeW) :=
  C6_processing_failure_no_save storeW "image-0" recW [] false "boom"
    (fun _ => Except.ok none) (by decide)

/-- C7: ensure_session is total (never fails) and idempotent on known ids:
called with an already-known candidate it returns that id and leaves the
whole store unchanged (hence no duplicate session), twice in a row; with
an unknown or omitted candidate the returned fresh identifier is
registered with an empty session. -/
theorem C7_ensure_session_idempotent (s : Store) (cid : String) :
    ((assocFind s.sessions cid).isSome = true →
      ensure_session s (some cid) = (cid, s) ∧
      ensure_session (ensure_session s (some cid)).2 (some cid) = (cid, s)) ∧
    ((assocFind s.sessions cid).isSome = false →
      assocFind (ensure_session s (some cid)).2.sessions
        (ensure_session s (some cid)).1 = some []) ∧
    assocFind (ensure_session s none).2.sessions
      (ensure_session s none).1 = some [] := by
  refine ⟨?_, ?_, ?_⟩
  · intro h
    have e : ensure_session s (some cid) = (cid, s) := by
      simp [ensure_session, h]
    refine ⟨e, ?_⟩
    rw [e]
    exact e
  · intro h
    simp [ensure_session, h, mint_session, assocFind]
  · simp [ensure_session, mint_session, assocFind]

/-- Witness for C7 at a concrete store. -/
theorem C7_witness :
    ensure_session storeW (some "s1") = ("s1", storeW) ∧
    ensure_session (ensure_session storeW (some "s1")).2 (some "s1") =
      ("s1", storeW) ∧
    assocFind (ensure_session storeW none).2.sessions
      (ensure_session storeW none).1 = some [] := by
  obtain ⟨h1, _, h3⟩ := C7_ensure_session_idempotent storeW "s1"
  exact ⟨(h1 (by decide)).1, (h1 (by decide)).2, h3⟩

/-- C8: upload_images filters out files with empty payloads before calling
store_image, so the precondition that stored bytes are non-empty holds:
whenever every image record of the store has a non-empty byte payload,
the same holds after any upload request. -/
theorem C8_store_image_nonempty_bytes (s : Store)
    (files : List (String × Bytes)) (cand : Option String)
    (hs : ∀ p ∈ s.images, p.2.bytes ≠ []) :
    ∀ p ∈ (upload_images s files cand).2.images, p.2.bytes ≠ [] := by
  by_cases hf : files = []
  · simpa [upload_images, hf] using hs
  · have h1 : ∀ p ∈ (ensure_session s cand).2.images, p.2.bytes ≠ [] := by
      rw [ensure_session_images]
      exact hs
    have h2 := uploadLoop_bytes_nonempty files (ensure_session s cand).2
      (ensure_session s cand).1 h1
    intro p hp
    apply h2 p
    by_cases hu : (uploadLoop (ensure_session s cand).2
        (ensure_session s cand).1 files).1 = []
    · simpa [upload_images, hf, hu] using hp
    · simpa [upload_images, hf, hu] using hp

/-- Witness for C8 at a concrete store: the record stored by an upload
with one non-empty and one empty file has non-empty bytes. -/
theorem C8_witness : uploadedPair.2.bytes ≠ [] :=
  C8_store_image_nonempty_bytes emptyStore [("a.png", [1]), ("b.png", [])]
    none (by simp [emptyStore]) uploadedPair (by decide)

/-- C9: each export row serializes the detection parameters as a stable
deterministic textual encoding of the exact stored configuration: the
parameter string is a function of record.last_parameters alone, so equal
stored parameters always produce the same string; whenever parameters are
stored it is their compact JSON encoding; and download_results builds
exactly one such row per session record. -/
theorem C9_parameters_stable (r1 r2 : ImageRecord)
    (h : r1.last_parameters = r2.last_parameters) :
    (exportRow r1).parameters = paramsStr r1.last_parameters ∧
    (exportRow r1).parameters = (exportRow r2).parameters ∧
    (r1.last_parameters ≠ [] →
      (exportRow r1).parameters = jsonDumps r1.last_parameters) ∧
    ∀ (s : Store) (sid : String) (recs : List ImageRecord),
      get_session_records s sid = some recs → recs ≠ [] →
      download_results s sid = Except.ok (recs.map exportRow) := by
  refine ⟨rfl, ?_, ?_, ?_⟩
  · simp [exportRow, paramsStr, h]
  · intro hne
    simp [exportRow, paramsStr, hne]
  · intro s sid recs hr hne
    simp [download_results, hr, hne]

/-- Witness for C9 at concrete records sharing the same stored parameters
and a concrete store export. -/
theorem C9_witness :
    (exportRow recP1).parameters = paramsStr recP1.last_parameters ∧
    (exportRow recP1).parameters = (exportRow recP2).parameters ∧
    (exportRow recP1).parameters = jsonDumps recP1.last_parameters ∧
    download_results storeW "s1" = Except.ok ([recW].map exportRow) := by
  obtain ⟨h1, h2, h3, h4⟩ := C9_parameters_stable recP1 recP2 (by decide)
  exact ⟨h1, h2, h3 (by decide), h4 storeW "s1" [recW] (by decide) (by decide)⟩

/-- C10: with include_mask enabled on a known image whose detection
produced a mask, a failure while PNG-encoding the mask does not fail the
request: the detection result is saved to the store all the same, the
exception is swallowed, and the response is returned successfully with
mask_png equal to none. -/
theorem C10_mask_encode_failure_swallowed (s : Store) (iid : String)
    (r : ImageRecord) (ps : Params) (d : Detection) (m : Mask)
    (h : get_image s iid = some r) (hm : d.mask = some m) :
    ∃ s2,
      process_image_handler s iid ps true (Except.ok d)
        (fun _ => Except.error ()) =
        (Except.ok { image_id := iid, session_id := r.session_id,
                     count := d.count, colonies := d.colonies,
                     parameters := ps, mask_png := none }, s2) ∧
      save_detection s iid d.colonies d.count ps = some s2 ∧
      ∃ r2, get_image s2 iid = some r2 ∧ r2.colonies = d.colonies ∧
        r2.last_detection_count = d.count ∧ r2.last_parameters = ps := by
  have hfind : assocFind s.images iid = some r := h
  have hsave : save_detection s iid d.colonies d.count ps =
      some { s with
             images := assocUpdate s.images iid
               (detectionApplied r d.colonies d.count ps) } := by
    simp [save_detection, detectionApplied, hfind]
  refine ⟨_, ?_, hsave,
    detectionApplied r d.colonies d.count ps, ?_, rfl, rfl, rfl⟩
  · simp [process_image_handler, h, hsave, hm]
  · simp only [get_image]
    exact assocFind_assocUpdate_self s.images iid _ (by simp [hfind])

/-- Witness for C10 at a concrete store and detection outcome. -/
theorem C10_witness :
    ∃ s2,
      process_image_handler storeW "image-0" [("threshold", "2")] true
        (Except.ok detW) (fun _ => Except.error ()) =
        (Except.ok { image_id := "image-0", session_id := recW.session_id,
                     count := detW.count, colonies := detW.colonies,
                     parameters := [("threshold", "2")], mask_png := none },
          s2) ∧
      save_detection storeW "image-0" detW.colonies detW.count
        [("threshold", "2")] = some s2 ∧
      ∃ r2, get_image s2 "image-0" = some r2 ∧ r2.colonies = detW.colonies ∧
        r2.last_detection_count = detW.count ∧
        r2.last_parameters = [("threshold", "2")] :=
  C10_mask_encode_failure_swallowed storeW "image-0" recW [("threshold", "2")]
    detW [0, 1] (by decide) (by decide)

end SoftAgar
